/-
Verification of the library-management system (Biblio-manager):
a shallow embedding in Lean 4 of the data model and the operations of
`src/models/{livre,exemplaire,emprunt,reservation,user}.py` and
`src/services/{gestion_emprunt,gestion_reservation,gestion_livre,gestion_user}.py`,
together with proofs about book-status invariants, the borrow/return/renew
life cycle, penalties and suspensions, the reservation state machine and
JSON round-trips.

Modelling conventions:
* A Python `datetime` is the number of microseconds since the epoch
  (an `Int`); `timedelta(days = d)` is `d * usPerDay`, and
  `timedelta.days` of a difference is floor division by `usPerDay`
  (Python normalises timedeltas with floor semantics).
* `isoformat(timespec = 'seconds')` followed by `fromisoformat` keeps the
  date up to whole seconds, i.e. it is truncation `truncSec`;
  plain `isoformat` round-trips exactly.
* `datetime.now()` is an explicit `now` parameter; the generated unique
  ids (`generer_id_unique`) are explicit `freshId` parameters.
* Python dicts are association lists with unique keys, in insertion
  order; assignment overwrites in place or appends, lookups take the
  first (= only) matching entry.
* Raising an exception is returning `Except.error`; services also return
  the state as it is when the exception escapes, because side effects
  already applied (for example the pruning of expired suspensions)
  survive the exception in Python.
* Writing files never fails in the model (a failed write is logged and
  does not roll back in the source); loading from disk is not modelled,
  states are arbitrary values of the state type.
-/
import Mathlib

namespace Biblio

/-- Python `datetime`, as microseconds since the epoch. -/
abbrev DateTime := Int

/-- Microseconds in one second. -/
def usPerSec : Int := 1000000

/-- Microseconds in one day (`timedelta(days=1)`). -/
def usPerDay : Int := 86400000000

/-- Truncation of a datetime to whole seconds: the effect of
`isoformat(timespec='seconds')` followed by `fromisoformat`. -/
def truncSec (t : DateTime) : DateTime := (Int.fdiv t usPerSec) * usPerSec

/-- `utils.clean.valider_code_barre`: for an actual string the
`nettoyer_chaine` guard never yields `None`, so the check is exactly
`len(code_barre) == 5`. -/
def valider_code_barre (codeBarre : String) : Bool :=
  codeBarre.length == 5

/-- `models.enums.StatutLivre`. -/
inductive StatutLivre where
  | disponible
  | emprunte
  | reserve
  | perdu
  | endommage
  | indisponible
deriving DecidableEq, Repr

/-- `models.exemplaire.Exemplaire`: one physical copy of a book. -/
structure Exemplaire where
  codeBarre : String
  etat : String
  localisation : String
  statut : StatutLivre
  dateAcquisition : DateTime
deriving DecidableEq, Repr

/-- `models.livre.Livre`: catalog entry with its owned copies, the
derived status cache and the borrow counter. -/
structure Livre where
  isbn : String
  titre : String
  auteur : String
  editeur : String
  anneePublication : Int
  exemplaires : List Exemplaire
  statut : StatutLivre
  compteurEmprunts : Nat
deriving DecidableEq, Repr

namespace Livre

/-- `Livre.nombre_exemplaires`. -/
def nombre_exemplaires (l : Livre) : Nat := l.exemplaires.length

/-- `Livre.exemplaires_disponibles`: count of copies whose status is
`DISPONIBLE`. -/
def exemplaires_disponibles (l : Livre) : Nat :=
  (l.exemplaires.filter fun ex => ex.statut == StatutLivre.disponible).length

/-- `Livre.mettre_a_jour_statut`: recompute the cached status from the
copies. -/
def mettre_a_jour_statut (l : Livre) : Livre :=
  if l.nombre_exemplaires = 0 then
    { l with statut := StatutLivre.indisponible }
  else if 0 < l.exemplaires_disponibles then
    { l with statut := StatutLivre.disponible }
  else
    { l with statut := StatutLivre.emprunte }

/-- `Livre.ajouter_exemplaire` (copy provided by the caller): append and
recompute the status. -/
def ajouter_exemplaire (l : Livre) (ex : Exemplaire) : Livre :=
  mettre_a_jour_statut { l with exemplaires := l.exemplaires ++ [ex] }

/-- Remove the first element of a list of copies carrying the given
barcode (`list.remove` on the first match of the scan). -/
def retirerPremier : List Exemplaire → String → List Exemplaire
  | [], _ => []
  | ex :: rest, cb =>
      if ex.codeBarre == cb then rest else ex :: retirerPremier rest cb

/-- `Livre.retirer_exemplaire`: drop the first copy with the barcode and
recompute the status; report whether a copy was removed. -/
def retirer_exemplaire (l : Livre) (cb : String) : Bool × Livre :=
  if l.exemplaires.any fun ex => ex.codeBarre == cb then
    (true, mettre_a_jour_statut { l with exemplaires := retirerPremier l.exemplaires cb })
  else
    (false, l)

/-- `Livre.incrementer_compteur`. -/
def incrementer_compteur (l : Livre) : Livre :=
  { l with compteurEmprunts := l.compteurEmprunts + 1 }

/-- `Livre.est_disponible`. -/
def est_disponible (l : Livre) : Bool :=
  0 < l.exemplaires_disponibles

end Livre

/-- The invariant claimed for the derived book status: `INDISPONIBLE`
iff there are no copies, `DISPONIBLE` iff some copy is available,
`EMPRUNTE` otherwise. -/
def invariantStatut (l : Livre) : Prop :=
  (l.statut = StatutLivre.indisponible ↔ l.exemplaires.length = 0) ∧
  (l.statut = StatutLivre.disponible ↔ ∃ ex ∈ l.exemplaires, ex.statut = StatutLivre.disponible) ∧
  (l.statut = StatutLivre.emprunte ↔
    (l.exemplaires.length ≠ 0 ∧ ∀ ex ∈ l.exemplaires, ex.statut ≠ StatutLivre.disponible))

lemma exemplaires_disponibles_pos_iff (l : Livre) :
    0 < l.exemplaires_disponibles ↔ ∃ ex ∈ l.exemplaires, ex.statut = StatutLivre.disponible := by
  unfold Livre.exemplaires_disponibles
  rw [List.length_pos]
  constructor
  · intro h
    rcases List.exists_mem_of_ne_nil _ h with ⟨ex, hex⟩
    exact ⟨ex, List.mem_of_mem_filter hex, by
      have := List.of_mem_filter hex
      simpa using this⟩
  · rintro ⟨ex, hmem, hst⟩
    intro hnil
    have : ex ∈ l.exemplaires.filter fun ex => ex.statut == StatutLivre.disponible := by
      refine List.mem_filter.mpr ⟨hmem, by simpa using hst⟩
    rw [hnil] at this
    exact absurd this (List.not_mem_nil ex)

/-- `mettre_a_jour_statut` establishes the book-status invariant. -/
lemma invariantStatut_mettre_a_jour (l : Livre) :
    invariantStatut (Livre.mettre_a_jour_statut l) := by
  unfold Livre.mettre_a_jour_statut invariantStatut Livre.nombre_exemplaires
  by_cases h0 : l.exemplaires.length = 0
  · simp only [h0, if_pos rfl]
    have hnil : l.exemplaires = [] := List.length_eq_zero.mp h0
    refine ⟨by simp [h0], ?_, ?_⟩ <;> simp [hnil]
  · rw [if_neg h0]
    by_cases hd : 0 < l.exemplaires_disponibles
    · rw [if_pos hd]
      have hex := (exemplaires_disponibles_pos_iff l).mp hd
      refine ⟨by simp [h0], by simpa using hex, ?_⟩
      constructor
      · intro h; exact absurd h (by simp)
      · rintro ⟨-, hall⟩
        rcases hex with ⟨ex, hmem, hst⟩
        exact absurd hst (hall ex hmem)
    · rw [if_neg hd]
      have hnone : ∀ ex ∈ l.exemplaires, ex.statut ≠ StatutLivre.disponible := by
        intro ex hmem hst
        exact hd ((exemplaires_disponibles_pos_iff l).mpr ⟨ex, hmem, hst⟩)
      refine ⟨by simp [h0], ?_, by simp [h0]; exact hnone⟩
      constructor
      · intro h; exact absurd h (by simp)
      · rintro ⟨ex, hmem, hst⟩
        exact absurd hst (hnone ex hmem)

/-- `models.emprunt.Emprunt`: one loan record. -/
structure Emprunt where
  idEmprunt : String
  matriculeUser : String
  isbn : String
  codeBarre : String
  dateEmprunt : DateTime
  dateEcheance : DateTime
  dateRetour : Option DateTime
  renouvellements : Nat
deriving DecidableEq, Repr

namespace Emprunt

/-- `Emprunt.MAX_RENOUVELLEMENTS`. -/
def MAX_RENOUVELLEMENTS : Nat := 2

/-- `Emprunt.statut` (computed property; `datetime.now()` is the
explicit `now`). -/
def statut (e : Emprunt) (now : DateTime) : String :=
  match e.dateRetour with
  | some r => if e.dateEcheance < r then "en_retard" else "retourne"
  | none => if e.dateEcheance < now then "en_retard" else "emprunte"

/-- `Emprunt.est_en_retard`. -/
def est_en_retard (e : Emprunt) (now : DateTime) : Bool :=
  e.dateRetour.isNone && decide (e.dateEcheance < now)

/-- `Emprunt.peut_renouveler`. -/
def peut_renouveler (e : Emprunt) (now : DateTime) : Bool :=
  if e.dateRetour.isSome then false
  else if e.est_en_retard now then false
  else decide (e.renouvellements < MAX_RENOUVELLEMENTS)

/-- `Emprunt.renouveler`: returns the success flag and the (possibly)
updated loan. -/
def renouveler (e : Emprunt) (now : DateTime) (jours : Int) : Bool × Emprunt :=
  if e.peut_renouveler now then
    (true, { e with dateEcheance := e.dateEcheance + jours * usPerDay,
                    renouvellements := e.renouvellements + 1 })
  else
    (false, e)

/-- `Emprunt.retourner` (the default `date_retour or datetime.now()`
argument made explicit). -/
def marquer_retour (e : Emprunt) (dateRetour : DateTime) : Emprunt :=
  { e with dateRetour := some dateRetour }

end Emprunt

/-- The persisted form of a loan (`Emprunt.data_format`): the ISO
strings are modelled by the datetimes they parse back to, which for
`timespec='seconds'` means second-truncated values. -/
structure EmpruntData where
  idEmprunt : String
  matriculeUser : String
  isbn : String
  codeBarre : String
  dateEmprunt : DateTime
  dateEcheance : DateTime
  dateRetour : Option DateTime
  statut : String
  renouvellements : Nat
deriving DecidableEq, Repr

namespace Emprunt

/-- `Emprunt.data_format`. -/
def data_format (e : Emprunt) (now : DateTime) : EmpruntData :=
  { idEmprunt := e.idEmprunt
    matriculeUser := e.matriculeUser
    isbn := e.isbn
    codeBarre := e.codeBarre
    dateEmprunt := truncSec e.dateEmprunt
    dateEcheance := truncSec e.dateEcheance
    dateRetour := e.dateRetour.map truncSec
    statut := e.statut now
    renouvellements := e.renouvellements }

/-- `Emprunt.from_dict`: validates the barcode, ignores the persisted
`statut` snapshot and restores every stored field. -/
def from_dict (d : EmpruntData) : Option Emprunt :=
  if valider_code_barre d.codeBarre then
    some { idEmprunt := d.idEmprunt
           matriculeUser := d.matriculeUser
           isbn := d.isbn
           codeBarre := d.codeBarre
           dateEmprunt := d.dateEmprunt
           dateEcheance := d.dateEcheance
           dateRetour := d.dateRetour
           renouvellements := d.renouvellements }
  else
    none

end Emprunt

/-- `models.reservation.Reservation`. -/
structure Reservation where
  id : String
  matriculeUser : String
  isbn : String
  dateReservation : DateTime
  statut : String
deriving DecidableEq, Repr

namespace Reservation

/-- `Reservation.STATUTS_VALIDES`. -/
def STATUTS_VALIDES : List String :=
  ["en_attente", "notifie", "confirme", "annule"]

/-- `Reservation.notifier`: only a pending reservation can be notified,
otherwise a `ValueError` (the spec's `InvalidTransition`) is raised. -/
def notifier (r : Reservation) : Except Unit Reservation :=
  if r.statut = "en_attente" then
    Except.ok { r with statut := "notifie" }
  else
    Except.error ()

/-- `Reservation.confirmer`: only a notified reservation can be
confirmed. -/
def confirmer (r : Reservation) : Except Unit Reservation :=
  if r.statut = "notifie" then
    Except.ok { r with statut := "confirme" }
  else
    Except.error ()

/-- `Reservation.annuler`: a no-op on an already-cancelled reservation,
otherwise unconditionally sets `annule`; it never raises. -/
def annuler (r : Reservation) : Reservation :=
  if r.statut = "annule" then r else { r with statut := "annule" }

/-- `Reservation.est_notifiable`. -/
def est_notifiable (r : Reservation) : Bool :=
  r.statut == "en_attente"

/-- `Reservation.est_confirmable`. -/
def est_confirmable (r : Reservation) : Bool :=
  r.statut == "notifie"

end Reservation

/-- The persisted form of a reservation (`Reservation.data_format`);
`date_reservation` uses full-precision `isoformat`, which round-trips
exactly. -/
structure ReservationData where
  idReservation : String
  matriculeUser : String
  isbn : String
  dateReservation : DateTime
  statut : String
deriving DecidableEq, Repr

namespace Reservation

/-- `Reservation.data_format`. -/
def data_format (r : Reservation) : ReservationData :=
  { idReservation := r.id
    matriculeUser := r.matriculeUser
    isbn := r.isbn
    dateReservation := r.dateReservation
    statut := r.statut }

/-- `Reservation.from_dict`: an unknown status falls back to
`en_attente`; the constructor then rejects empty matricule or ISBN. -/
def from_dict (d : ReservationData) : Option Reservation :=
  let statut := if STATUTS_VALIDES.contains d.statut then d.statut else "en_attente"
  if d.matriculeUser = "" then none
  else if d.isbn = "" then none
  else some { id := d.idReservation
              matriculeUser := d.matriculeUser
              isbn := d.isbn
              dateReservation := d.dateReservation
              statut := statut }

end Reservation

/-- One entry of `User.livres_empruntes` (isbn, copy id, borrow date). -/
structure EmpruntInfo where
  isbn : String
  idExemplaire : String
  dateEmprunt : DateTime
deriving DecidableEq, Repr

/-- One entry of `User.historique`. -/
structure HistEntry where
  isbn : String
  idExemplaire : String
  action : String
  dateEmprunt : Option DateTime
  dateRetour : Option DateTime
deriving DecidableEq, Repr

/-- `models.user.User`: the fields circulation depends on. -/
structure User where
  matricule : String
  statut : String
  livresEmpruntes : List EmpruntInfo
  historique : List HistEntry
  limiteEmprunts : Nat
deriving DecidableEq, Repr

namespace User

/-- `User.peut_emprunter`. -/
def peut_emprunter (u : User) : Bool :=
  u.statut == "actif" && decide (u.livresEmpruntes.length < u.limiteEmprunts)

/-- `User.enregistrer_emprunt`. -/
def enregistrer_emprunt (u : User) (isbn idExemplaire : String) (now : DateTime) : User :=
  { u with
    livresEmpruntes := u.livresEmpruntes ++ [{ isbn := isbn, idExemplaire := idExemplaire, dateEmprunt := now }]
    historique := u.historique ++
      [{ isbn := isbn, idExemplaire := idExemplaire, action := "emprunt",
         dateEmprunt := some now, dateRetour := none }] }

/-- `User.enregistrer_retour`: drops every current-loan entry matching
isbn and copy id, appends a history record. -/
def enregistrer_retour (u : User) (isbn idExemplaire : String) (now : DateTime) : User :=
  { u with
    livresEmpruntes := u.livresEmpruntes.filter fun e =>
      !(e.isbn == isbn && e.idExemplaire == idExemplaire)
    historique := u.historique ++
      [{ isbn := isbn, idExemplaire := idExemplaire, action := "retour",
         dateEmprunt := none, dateRetour := some now }] }

end User

/-- First-match lookup in an association list (Python dict `get`). -/
def dictGet {α : Type} (l : List (String × α)) (k : String) : Option α :=
  (l.find? fun p => p.1 == k).map fun p => p.2

/-- Python dict assignment: overwrite the value in place if the key is
present, append the pair otherwise. -/
def dictSet {α : Type} (l : List (String × α)) (k : String) (v : α) : List (String × α) :=
  if l.any fun p => p.1 == k then
    l.map fun p => if p.1 == k then (k, v) else p
  else
    l ++ [(k, v)]

/-- Python dict `del`. -/
def dictRemove {α : Type} (l : List (String × α)) (k : String) : List (String × α) :=
  l.filter fun p => !(p.1 == k)

/-- `GestionLivre.get_livre`: first book in the catalog list with the
requested ISBN. -/
def getLivre : List Livre → String → Option Livre
  | [], _ => none
  | l :: rest, isbn => if l.isbn == isbn then some l else getLivre rest isbn

/-- Mutation of the book object returned by `get_livre`: apply `f` to
the first ISBN match, leave everything else in place. -/
def updateLivre : List Livre → String → (Livre → Livre) → List Livre
  | [], _, _ => []
  | l :: rest, isbn, f =>
      if l.isbn == isbn then f l :: rest else l :: updateLivre rest isbn f

/-- `GestionUtilisateur.get_utilisateur_par_matricule`. -/
def getUser : List User → String → Option User
  | [], _ => none
  | u :: rest, matricule => if u.matricule == matricule then some u else getUser rest matricule

/-- Mutation of the user object returned by the matricule lookup. -/
def updateUser : List User → String → (User → User) → List User
  | [], _, _ => []
  | u :: rest, matricule, f =>
      if u.matricule == matricule then f u :: rest else u :: updateUser rest matricule f

/-- The in-memory state of the whole application: the catalog
(`GestionLivre._livres`), the members (`GestionUtilisateur._utilisateurs`),
the loan dict and suspension table (`GestionEmprunt`), and the
reservation dict and FIFO queues (`GestionReservation`). -/
structure Etat where
  livres : List Livre
  users : List User
  emprunts : List (String × Emprunt)
  suspensions : List (String × DateTime)
  reservations : List (String × Reservation)
  files : List (String × List String)
deriving DecidableEq, Repr

/-- The error taxonomy raised by the services (`ValueError`,
`EmpruntError`, `LimiteAtteinte`, `ExemplaireIndisponible`,
`EmpruntNonTrouve` and the reservation `ValueError`s). -/
inductive BiblioErr where
  | utilisateurIntrouvable
  | utilisateurSuspendu
  | limiteAtteinte
  | livreIntrouvable
  | exemplaireIndisponible
  | empruntNonTrouve
  | livreDejaDisponible
  | reservationEnCours
deriving DecidableEq, Repr

/-- `GestionEmprunt.__nettoyer_suspensions`: keep only the entries whose
expiry is strictly in the future. -/
def nettoyerSuspensions (now : DateTime) (susp : List (String × DateTime)) :
    List (String × DateTime) :=
  susp.filter fun p => decide (now < p.2)

namespace GestionEmprunt

/-- `GestionEmprunt.FACTEUR_SUSPENSION`. -/
def FACTEUR_SUSPENSION : Int := 3

/-- `GestionEmprunt.__is_suspended`: returns the expiry when the member
is suspended; an expired entry is deleted and the save prunes every
other expired entry as well.  (The invalid-ISO-string branch cannot
occur in the model, where expiries are stored as datetimes.) -/
def isSuspendedCheck (st : Etat) (now : DateTime) (matricule : String) :
    Option DateTime × Etat :=
  match dictGet st.suspensions matricule with
  | none => (none, st)
  | some endT =>
      if now < endT then (some endT, st)
      else (none, { st with
        suspensions := nettoyerSuspensions now (dictRemove st.suspensions matricule) })

/-- Position-and-element scan used by `__trouver_exemplaire`. -/
def findIdxElem : List Exemplaire → (Exemplaire → Bool) → Option (Nat × Exemplaire)
  | [], _ => none
  | ex :: rest, p =>
      if p ex then some (0, ex)
      else (findIdxElem rest p).map fun q => (q.1 + 1, q.2)

/-- `GestionEmprunt.__trouver_exemplaire`: by barcode when one is given
(whatever its status), otherwise the first available copy. -/
def trouverExemplaire (livre : Livre) (codeBarre : Option String) :
    Option (Nat × Exemplaire) :=
  match codeBarre with
  | some cb => findIdxElem livre.exemplaires fun ex => ex.codeBarre == cb
  | none => findIdxElem livre.exemplaires fun ex => ex.statut == StatutLivre.disponible

/-- `GestionEmprunt.emprunter`.  The pair result carries the state even
on error because the pruning of expired suspensions performed by
`__is_suspended` survives the raised exception. -/
def emprunter (st : Etat) (now : DateTime) (freshId : String)
    (matricule isbn : String) (codeBarre : Option String) (dureeJours : Int) :
    Except BiblioErr Emprunt × Etat :=
  match getUser st.users matricule with
  | none => (Except.error BiblioErr.utilisateurIntrouvable, st)
  | some user =>
    let check := isSuspendedCheck st now matricule
    let st1 := check.2
    if check.1.isSome then (Except.error BiblioErr.utilisateurSuspendu, st1)
    else if !user.peut_emprunter then (Except.error BiblioErr.limiteAtteinte, st1)
    else
      match getLivre st1.livres isbn with
      | none => (Except.error BiblioErr.livreIntrouvable, st1)
      | some livre =>
        match trouverExemplaire livre codeBarre with
        | none => (Except.error BiblioErr.exemplaireIndisponible, st1)
        | some (idx, ex) =>
          if ex.statut ≠ StatutLivre.disponible then
            (Except.error BiblioErr.exemplaireIndisponible, st1)
          else
            let emprunt : Emprunt :=
              { idEmprunt := freshId
                matriculeUser := matricule
                isbn := isbn
                codeBarre := ex.codeBarre
                dateEmprunt := now
                dateEcheance := now + dureeJours * usPerDay
                dateRetour := none
                renouvellements := 0 }
            let livres' := updateLivre st1.livres isbn fun l =>
              Livre.mettre_a_jour_statut
                (Livre.incrementer_compteur
                  { l with exemplaires := l.exemplaires.set idx { ex with statut := StatutLivre.emprunte } })
            let users' := updateUser st1.users matricule fun u =>
              u.enregistrer_emprunt isbn ex.codeBarre now
            (Except.ok emprunt,
             { st1 with
               livres := livres'
               users := users'
               emprunts := dictSet st1.emprunts freshId emprunt
               suspensions := nettoyerSuspensions now st1.suspensions })

end GestionEmprunt

namespace GestionReservation

/-- `GestionReservation._retirer_de_file`: remove the first occurrence
of the reservation id from the ISBN's queue, when both exist. -/
def retirerDeFile (files : List (String × List String)) (isbn id : String) :
    List (String × List String) :=
  match dictGet files isbn with
  | none => files
  | some lst =>
      if lst.contains id then dictSet files isbn (lst.erase id) else files

/-- The queue/reservation updates of `GestionReservation.traiter_file`:
returns the new reservation dict, the new queue table and the id of the
notified reservation, if any. -/
def traiterFileCore (st : Etat) (isbn : String) :
    List (String × Reservation) × List (String × List String) × Option String :=
  match getLivre st.livres isbn with
  | none => (st.reservations, st.files, none)
  | some livre =>
    if !livre.est_disponible then (st.reservations, st.files, none)
    else
      let filePropre := ((dictGet st.files isbn).getD []).filter fun rid =>
        match dictGet st.reservations rid with
        | some r => r.statut == "en_attente"
        | none => false
      let files1 := dictSet st.files isbn filePropre
      match filePropre with
      | [] => (st.reservations, files1, none)
      | firstId :: _ =>
        match dictGet st.reservations firstId with
        | none => (st.reservations, files1, none)
        | some r =>
          match r.notifier with
          | Except.error _ => (st.reservations, files1, none)
          | Except.ok r' =>
              (dictSet st.reservations firstId r', files1, some firstId)

/-- `GestionReservation.traiter_file`. -/
def traiterFile (st : Etat) (isbn : String) : Etat × Option String :=
  let core := traiterFileCore st isbn
  ({ st with reservations := core.1, files := core.2.1 }, core.2.2)

/-- `GestionReservation.reserver` (both the user and the book
collaborators are wired, as in `main.py`). -/
def reserver (st : Etat) (now : DateTime) (freshId : String)
    (matricule isbn : String) : Except BiblioErr Reservation × Etat :=
  match getUser st.users matricule with
  | none => (Except.error BiblioErr.utilisateurIntrouvable, st)
  | some _ =>
    match getLivre st.livres isbn with
    | none => (Except.error BiblioErr.livreIntrouvable, st)
    | some livre =>
      if livre.est_disponible then (Except.error BiblioErr.livreDejaDisponible, st)
      else if (st.reservations.map fun p => p.2).any fun r =>
          r.matriculeUser == matricule && r.isbn == isbn &&
          (r.statut == "en_attente" || r.statut == "notifie") then
        (Except.error BiblioErr.reservationEnCours, st)
      else
        let r : Reservation :=
          { id := freshId, matriculeUser := matricule, isbn := isbn,
            dateReservation := now, statut := "en_attente" }
        (Except.ok r,
         { st with
           reservations := dictSet st.reservations freshId r
           files := dictSet st.files isbn (((dictGet st.files isbn).getD []) ++ [freshId]) })

/-- `GestionReservation.annuler`: `False` when the id is unknown,
otherwise cancel (whatever the current status) and drop it from the
queue. -/
def annuler (st : Etat) (id : String) : Bool × Etat :=
  match dictGet st.reservations id with
  | none => (false, st)
  | some r =>
      (true,
       { st with
         reservations := dictSet st.reservations id r.annuler
         files := retirerDeFile st.files r.isbn id })

/-- `GestionReservation.confirmer` with the circulation collaborator
wired: delegate to `emprunter`; on success confirm and dequeue, on any
failure return `False` leaving the reservation untouched (the borrow's
own surviving side effects excepted). -/
def confirmer (st : Etat) (now : DateTime) (freshEmpruntId : String)
    (id : String) : Bool × Etat :=
  match dictGet st.reservations id with
  | none => (false, st)
  | some r =>
    if !r.est_confirmable then (false, st)
    else
      match GestionEmprunt.emprunter st now freshEmpruntId r.matriculeUser r.isbn none 14 with
      | (Except.error _, st1) => (false, st1)
      | (Except.ok _, st1) =>
        match r.confirmer with
        | Except.error _ => (false, st1)
        | Except.ok r' =>
            (true,
             { st1 with
               reservations := dictSet st1.reservations id r'
               files := retirerDeFile st1.files r.isbn id })

end GestionReservation

namespace GestionEmprunt

/-- The copy update of `retourner`: flip the first copy with the loan's
barcode back to `DISPONIBLE` (the scan breaks at the first match). -/
def setStatutPremier : List Exemplaire → String → StatutLivre → List Exemplaire
  | [], _, _ => []
  | ex :: rest, cb, s =>
      if ex.codeBarre == cb then { ex with statut := s } :: rest
      else ex :: setStatutPremier rest cb s

/-- `GestionEmprunt.retourner`: idempotent on an already-returned loan;
otherwise stamp the return, free the copy and recompute the book status
(tolerating an absent book), record the return on the member
(tolerating an absent member), suspend the member when the return is
late, process the reservation queue, and save (which prunes expired
suspensions). -/
def retourner (st : Etat) (now : DateTime) (idEmprunt : String) :
    Except BiblioErr Emprunt × Etat :=
  match dictGet st.emprunts idEmprunt with
  | none => (Except.error BiblioErr.empruntNonTrouve, st)
  | some e =>
    if e.dateRetour.isSome then (Except.ok e, st)
    else
      let e1 := e.marquer_retour now
      let livres1 := updateLivre st.livres e1.isbn fun l =>
        Livre.mettre_a_jour_statut
          { l with exemplaires := setStatutPremier l.exemplaires e1.codeBarre StatutLivre.disponible }
      let users1 := updateUser st.users e1.matriculeUser fun u =>
        u.enregistrer_retour e1.isbn e1.codeBarre now
      let susp1 :=
        if e1.statut now = "en_retard" then
          let joursRetard := Int.fdiv (now - e1.dateEcheance) usPerDay
          let jr := if joursRetard ≤ 0 then 1 else joursRetard
          dictSet st.suspensions e1.matriculeUser (now + jr * FACTEUR_SUSPENSION * usPerDay)
        else st.suspensions
      let st1 : Etat :=
        { st with
          emprunts := dictSet st.emprunts idEmprunt e1
          livres := livres1
          users := users1
          suspensions := susp1 }
      let st2 := (GestionReservation.traiterFile st1 e1.isbn).1
      (Except.ok e1, { st2 with suspensions := nettoyerSuspensions now st2.suspensions })

/-- `GestionEmprunt.renouveler`: `EmpruntNonTrouve` on an unknown id,
otherwise delegate to the loan; only a successful renewal saves (and so
prunes expired suspensions). -/
def renouveler (st : Etat) (now : DateTime) (idEmprunt : String) (jours : Int) :
    Except BiblioErr Bool × Etat :=
  match dictGet st.emprunts idEmprunt with
  | none => (Except.error BiblioErr.empruntNonTrouve, st)
  | some e =>
    let res := e.renouveler now jours
    if res.1 then
      (Except.ok true,
       { st with
         emprunts := dictSet st.emprunts idEmprunt res.2
         suspensions := nettoyerSuspensions now st.suspensions })
    else
      (Except.ok false, st)

/-- The scan of `appliquer_penalites` over the loans (dict order):
every not-yet-returned loan past due by at least one whole day
overwrites its member's suspension entry. -/
def appliquerPenalitesAux (now : DateTime) :
    List Emprunt → List (String × DateTime) → List (String × DateTime)
  | [], susp => susp
  | e :: rest, susp =>
      appliquerPenalitesAux now rest
        (if e.dateRetour.isNone then
          if e.dateEcheance < now then
            let joursRetard := Int.fdiv (now - e.dateEcheance) usPerDay
            if 0 < joursRetard then
              dictSet susp e.matriculeUser (now + joursRetard * FACTEUR_SUSPENSION * usPerDay)
            else susp
          else susp
        else susp)

/-- `GestionEmprunt.appliquer_penalites`: run the scan, then save (which
prunes the expired entries). -/
def appliquer_penalites (st : Etat) (now : DateTime) : Etat :=
  { st with
    suspensions :=
      nettoyerSuspensions now
        (appliquerPenalitesAux now (st.emprunts.map fun p => p.2) st.suspensions) }

end GestionEmprunt

/-! Helper lemmas about the dict and catalog primitives. -/

lemma dictGet_dictSet_self {α : Type} (l : List (String × α)) (k : String) (v : α) :
    dictGet (dictSet l k v) k = some v := by
  unfold dictSet
  by_cases hmem : l.any fun p => p.1 == k
  · rw [if_pos hmem]
    induction l with
    | nil => simp at hmem
    | cons p rest ih =>
      by_cases hp : p.1 == k
      · simp [dictGet, List.find?, hp]
      · have hrest : rest.any fun q => q.1 == k := by
          rcases List.any_eq_true.mp hmem with ⟨q, hq, hqk⟩
          rcases List.mem_cons.mp hq with h | h
          · exact absurd (h ▸ hqk) (by simpa using hp)
          · exact List.any_eq_true.mpr ⟨q, h, hqk⟩
        have := ih hrest
        simpa [dictGet, List.find?, hp] using this
  · rw [if_neg hmem]
    induction l with
    | nil => simp [dictGet, List.find?]
    | cons p rest ih =>
      have hp : (p.1 == k) = false := by
        by_contra h
        exact hmem (List.any_eq_true.mpr ⟨p, List.mem_cons_self _ _, by simpa using h⟩)
      have hrest : ¬ rest.any fun q => q.1 == k := by
        intro h
        rcases List.any_eq_true.mp h with ⟨q, hq, hqk⟩
        exact hmem (List.any_eq_true.mpr ⟨q, List.mem_cons_of_mem _ hq, hqk⟩)
      have := ih hrest
      simpa [dictGet, List.find?, hp] using this

lemma dictGet_map_replace {α : Type} (l : List (String × α)) (k k' : String) (v : α)
    (h : k' ≠ k) :
    dictGet (l.map fun p => if p.1 == k then (k, v) else p) k' = dictGet l k' := by
  induction l with
  | nil => rfl
  | cons p rest ih =>
    by_cases hp : p.1 == k
    · have hpk : p.1 = k := by simpa using hp
      have hne : (k == k') = false := by simpa using (Ne.symm h)
      have hne' : (p.1 == k') = false := by simpa [hpk] using hne
      simp only [List.map_cons, if_pos hp]
      simpa [dictGet, List.find?, hne, hne'] using ih
    · by_cases hq : p.1 == k'
      · simp [dictGet, List.find?, hp, hq]
      · simp only [List.map_cons, if_neg hp]
        simpa [dictGet, List.find?, hq] using ih

lemma dictGet_append_single {α : Type} (l : List (String × α)) (k k' : String) (v : α)
    (h : k' ≠ k) :
    dictGet (l ++ [(k, v)]) k' = dictGet l k' := by
  induction l with
  | nil =>
    have : (k == k') = false := by simpa using (Ne.symm h)
    simp [dictGet, List.find?, this]
  | cons p rest ih =>
    by_cases hq : p.1 == k'
    · simp [dictGet, List.find?, hq]
    · simpa [dictGet, List.find?, hq] using ih

lemma dictGet_dictSet_ne {α : Type} (l : List (String × α)) (k k' : String) (v : α)
    (h : k' ≠ k) : dictGet (dictSet l k v) k' = dictGet l k' := by
  unfold dictSet
  by_cases hmem : l.any fun p => p.1 == k
  · rw [if_pos hmem]
    exact dictGet_map_replace l k k' v h
  · rw [if_neg hmem]
    exact dictGet_append_single l k k' v h

lemma dictGet_nettoyer (l : List (String × DateTime)) (k : String) (v : DateTime)
    (now : DateTime) (h : dictGet l k = some v) (hv : now < v) :
    dictGet (nettoyerSuspensions now l) k = some v := by
  induction l with
  | nil => simp [dictGet, List.find?] at h
  | cons p rest ih =>
    by_cases hp : p.1 == k
    · have hv2 : p.2 = v := by
        simpa [dictGet, List.find?, hp] using h
      unfold nettoyerSuspensions
      rw [List.filter_cons]
      have : decide (now < p.2) = true := by simpa [hv2] using hv
      simp only [this, if_pos]
      simp [dictGet, List.find?, hp, hv2]
    · have h' : dictGet rest k = some v := by
        simpa [dictGet, List.find?, hp] using h
      have := ih h'
      unfold nettoyerSuspensions at this ⊢
      rw [List.filter_cons]
      by_cases hkeep : decide (now < p.2) = true
      · simp only [hkeep, if_pos]
        simpa [dictGet, List.find?, hp] using this
      · simp only [hkeep]
        simpa using this

lemma getLivre_updateLivre (ls : List Livre) (isbn : String) (f : Livre → Livre)
    (hf : ∀ l, (f l).isbn = l.isbn) :
    getLivre (updateLivre ls isbn f) isbn = (getLivre ls isbn).map f := by
  induction ls with
  | nil => simp [getLivre, updateLivre]
  | cons l rest ih =>
    by_cases hl : l.isbn == isbn
    · have : ((f l).isbn == isbn) = true := by
        rw [hf l]; exact hl
      simp [getLivre, updateLivre, hl, this]
    · simp [getLivre, updateLivre, hl, ih]

lemma isbn_mettre_a_jour (l : Livre) :
    (Livre.mettre_a_jour_statut l).isbn = l.isbn := by
  unfold Livre.mettre_a_jour_statut
  split
  · rfl
  · split <;> rfl

lemma traiterFile_suspensions (st : Etat) (isbn : String) :
    ((GestionReservation.traiterFile st isbn).1).suspensions = st.suspensions := rfl

lemma traiterFile_livres (st : Etat) (isbn : String) :
    ((GestionReservation.traiterFile st isbn).1).livres = st.livres := rfl

lemma traiterFile_users (st : Etat) (isbn : String) :
    ((GestionReservation.traiterFile st isbn).1).users = st.users := rfl

lemma traiterFile_emprunts (st : Etat) (isbn : String) :
    ((GestionReservation.traiterFile st isbn).1).emprunts = st.emprunts := rfl

/-! Claim theorems. -/

/-- Claim C1: for every book in the catalog, after any operation that
touches its copies completes (adding a copy, removing a copy,
borrowing, returning), the book's derived status equals `INDISPONIBLE`
iff its copy count is 0, `DISPONIBLE` iff at least one copy has status
`DISPONIBLE`, and `EMPRUNTE` otherwise. -/
theorem statut_livre_invariant_apres_operations :
    (∀ (l : Livre) (ex : Exemplaire), invariantStatut (Livre.ajouter_exemplaire l ex)) ∧
    (∀ (l : Livre) (cb : String), (Livre.retirer_exemplaire l cb).1 = true →
      invariantStatut (Livre.retirer_exemplaire l cb).2) ∧
    (∀ (st : Etat) (now : DateTime) (freshId matricule isbn : String)
       (codeBarre : Option String) (duree : Int) (e : Emprunt) (st' : Etat),
      GestionEmprunt.emprunter st now freshId matricule isbn codeBarre duree =
        (Except.ok e, st') →
      ∀ l', getLivre st'.livres isbn = some l' → invariantStatut l') ∧
    (∀ (st : Etat) (now : DateTime) (idEmprunt : String) (e0 e : Emprunt) (st' : Etat),
      dictGet st.emprunts idEmprunt = some e0 → e0.dateRetour = none →
      GestionEmprunt.retourner st now idEmprunt = (Except.ok e, st') →
      ∀ l', getLivre st'.livres e.isbn = some l' → invariantStatut l') := by
  refine ⟨?_, ?_, ?_, ?_⟩
  · intro l ex
    exact invariantStatut_mettre_a_jour _
  · intro l cb h
    unfold Livre.retirer_exemplaire at h ⊢
    by_cases hany : l.exemplaires.any fun ex => ex.codeBarre == cb
    · rw [if_pos hany]
      exact invariantStatut_mettre_a_jour _
    · rw [if_neg hany] at h
      simp at h
  · intro st now fid m isbn cb d e st' h l' hl'
    unfold GestionEmprunt.emprunter at h
    split at h
    · simp at h
    · dsimp only at h
      split at h
      · simp at h
      · split at h
        · simp at h
        · split at h
          · simp at h
          · rename_i st1x livre hlivre
            split at h
            · simp at h
            · split at h
              · simp at h
              · rw [Prod.mk.injEq] at h
                obtain ⟨-, hst⟩ := h
                subst hst
                rw [getLivre_updateLivre] at hl'
                · rcases Option.map_eq_some'.mp hl' with ⟨l0, -, hfl⟩
                  subst hfl
                  exact invariantStatut_mettre_a_jour _
                · intro l0
                  rw [isbn_mettre_a_jour]
                  rfl
  · intro st now idE e0 e st' h1 h2 h l' hl'
    unfold GestionEmprunt.retourner at h
    simp only [h1, h2, Option.isSome_none, Bool.false_eq_true, if_false] at h
    rw [Prod.mk.injEq] at h
    obtain ⟨he, hst⟩ := h
    rw [Except.ok.injEq] at he
    subst he
    subst hst
    dsimp only [Emprunt.marquer_retour] at hl'
    rw [traiterFile_livres] at hl'
    dsimp only at hl'
    rw [getLivre_updateLivre] at hl'
    · rcases Option.map_eq_some'.mp hl' with ⟨l0, -, hfl⟩
      subst hfl
      exact invariantStatut_mettre_a_jour _
    · intro l0
      rw [isbn_mettre_a_jour]

/-- Sample copy for the C1 witness. -/
def exW1 : Exemplaire :=
  { codeBarre := "11111", etat := "bon", localisation := "stock",
    statut := StatutLivre.disponible, dateAcquisition := 0 }

/-- Sample book for the C1 witness. -/
def livW1 : Livre :=
  { isbn := "B1", titre := "T", auteur := "A", editeur := "E",
    anneePublication := 2020, exemplaires := [exW1],
    statut := StatutLivre.disponible, compteurEmprunts := 0 }

/-- Sample member for the C1 witness. -/
def usrW1 : User :=
  { matricule := "U1", statut := "actif", livresEmpruntes := [],
    historique := [], limiteEmprunts := 3 }

/-- Sample state for the C1 witness. -/
def stW1 : Etat :=
  { livres := [livW1], users := [usrW1], emprunts := [],
    suspensions := [], reservations := [], files := [] }

/-- The loan created by borrowing in `stW1` at time 0. -/
def eW1 : Emprunt :=
  { idEmprunt := "E1", matriculeUser := "U1", isbn := "B1",
    codeBarre := "11111", dateEmprunt := 0, dateEcheance := 14 * usPerDay,
    dateRetour := none, renouvellements := 0 }

/-- The state after that borrow. -/
def stW1b : Etat := (GestionEmprunt.emprunter stW1 0 "E1" "U1" "B1" none 14).2

/-- The sample book after the borrow. -/
def lW1e : Livre :=
  { isbn := "B1", titre := "T", auteur := "A", editeur := "E",
    anneePublication := 2020,
    exemplaires := [{ exW1 with statut := StatutLivre.emprunte }],
    statut := StatutLivre.emprunte, compteurEmprunts := 1 }

/-- The sample book after the return. -/
def lW1r : Livre :=
  { lW1e with exemplaires := [exW1], statut := StatutLivre.disponible }

theorem statut_livre_invariant_apres_operations_witness :
    invariantStatut (Livre.ajouter_exemplaire livW1 exW1) ∧
    invariantStatut (Livre.retirer_exemplaire livW1 "11111").2 ∧
    invariantStatut lW1e ∧ invariantStatut lW1r := by
  refine ⟨statut_livre_invariant_apres_operations.1 livW1 exW1,
          statut_livre_invariant_apres_operations.2.1 livW1 "11111" (by decide),
          ?_, ?_⟩
  · exact statut_livre_invariant_apres_operations.2.2.1 stW1 0 "E1" "U1" "B1" none 14 eW1
      (GestionEmprunt.emprunter stW1 0 "E1" "U1" "B1" none 14).2 rfl lW1e (by decide)
  · exact statut_livre_invariant_apres_operations.2.2.2 stW1b (19 * usPerDay) "E1" eW1
      (eW1.marquer_retour (19 * usPerDay))
      (GestionEmprunt.retourner stW1b (19 * usPerDay) "E1").2
      (by decide) (by decide) rfl lW1r (by decide)

lemma peut_renouveler_iff (e : Emprunt) (now : DateTime) :
    e.peut_renouveler now = true ↔
      (e.dateRetour = none ∧ ¬ e.dateEcheance < now ∧ e.renouvellements < 2) := by
  unfold Emprunt.peut_renouveler Emprunt.est_en_retard Emprunt.MAX_RENOUVELLEMENTS
  cases hret : e.dateRetour with
  | some d => simp [hret]
  | none =>
    by_cases hlate : e.dateEcheance < now
    · simp [hret, hlate]
    · simp [hret, hlate]

/-- Claim C3: renew succeeds (returns `true`, extends the due date by
the given days, increments the counter, keeps the stored loan updated)
iff the loan is not returned, not overdue and renewed fewer than 2
times; a failing renew returns `false` and leaves the whole state
unchanged; renew on an absent loan id raises `EmpruntNonTrouve`. -/
theorem renouveler_conditions (st : Etat) (now : DateTime) (idEmprunt : String) (jours : Int) :
    (dictGet st.emprunts idEmprunt = none →
      GestionEmprunt.renouveler st now idEmprunt jours =
        (Except.error BiblioErr.empruntNonTrouve, st)) ∧
    (∀ e, dictGet st.emprunts idEmprunt = some e →
      ((GestionEmprunt.renouveler st now idEmprunt jours).1 = Except.ok true ↔
        (e.dateRetour = none ∧ ¬ e.dateEcheance < now ∧ e.renouvellements < 2)) ∧
      (e.dateRetour = none → ¬ e.dateEcheance < now → e.renouvellements < 2 →
        dictGet ((GestionEmprunt.renouveler st now idEmprunt jours).2).emprunts idEmprunt =
          some { e with dateEcheance := e.dateEcheance + jours * usPerDay,
                        renouvellements := e.renouvellements + 1 }) ∧
      (¬ (e.dateRetour = none ∧ ¬ e.dateEcheance < now ∧ e.renouvellements < 2) →
        GestionEmprunt.renouveler st now idEmprunt jours = (Except.ok false, st))) := by
  constructor
  · intro h
    unfold GestionEmprunt.renouveler
    simp only [h]
  · intro e h
    unfold GestionEmprunt.renouveler Emprunt.renouveler
    by_cases hp : e.peut_renouveler now
    · have hconds := (peut_renouveler_iff e now).mp hp
      refine ⟨by simp [h, hp, hconds], ?_, by simp [hconds]⟩
      intro _ _ _
      simp only [h, hp, if_true]
      exact dictGet_dictSet_self _ _ _
    · have hconds : ¬ (e.dateRetour = none ∧ ¬ e.dateEcheance < now ∧ e.renouvellements < 2) := by
        intro hc
        exact hp ((peut_renouveler_iff e now).mpr hc)
      refine ⟨?_, ?_, by simp [h, hp]⟩
      · simp only [h, hp, if_false]
        constructor
        · intro hx
          exact absurd hx (by simp)
        · intro hc
          exact absurd hc hconds
      · intro hr hl hn
        exact absurd ⟨hr, hl, hn⟩ hconds

/-- Sample state for the C3 witness: one active loan renewed twice. -/
def stW3 : Etat :=
  { livres := [], users := [],
    emprunts := [("E1", { idEmprunt := "E1", matriculeUser := "U1", isbn := "B1",
                          codeBarre := "11111", dateEmprunt := 0,
                          dateEcheance := 28 * usPerDay, dateRetour := none,
                          renouvellements := 2 })],
    suspensions := [], reservations := [], files := [] }

theorem renouveler_conditions_witness :
    GestionEmprunt.renouveler stW3 0 "E9" 7 = (Except.error BiblioErr.empruntNonTrouve, stW3) ∧
    GestionEmprunt.renouveler stW3 0 "E1" 7 = (Except.ok false, stW3) := by
  have h1 := (renouveler_conditions stW3 0 "E9" 7).1 (by decide)
  have h2 := ((renouveler_conditions stW3 0 "E1" 7).2
    { idEmprunt := "E1", matriculeUser := "U1", isbn := "B1", codeBarre := "11111",
      dateEmprunt := 0, dateEcheance := 28 * usPerDay, dateRetour := none,
      renouvellements := 2 } (by decide)).2.2 (by decide)
  exact ⟨h1, h2⟩

/-- Claim C8: returning an unknown loan id raises `EmpruntNonTrouve`;
returning an already-returned loan is an idempotent no-op that yields
the stored loan and leaves the whole state untouched. -/
theorem retour_idempotent (st : Etat) (now : DateTime) (idEmprunt : String) :
    (dictGet st.emprunts idEmprunt = none →
      GestionEmprunt.retourner st now idEmprunt =
        (Except.error BiblioErr.empruntNonTrouve, st)) ∧
    (∀ e, dictGet st.emprunts idEmprunt = some e → e.dateRetour.isSome = true →
      GestionEmprunt.retourner st now idEmprunt = (Except.ok e, st)) := by
  constructor
  · intro h
    unfold GestionEmprunt.retourner
    simp only [h]
  · intro e h hret
    unfold GestionEmprunt.retourner
    simp only [h, hret, if_true]

/-- Sample state for the C8 witness: one already-returned loan. -/
def stW8 : Etat :=
  { livres := [], users := [],
    emprunts := [("E1", { idEmprunt := "E1", matriculeUser := "U1", isbn := "B1",
                          codeBarre := "11111", dateEmprunt := 0,
                          dateEcheance := 14 * usPerDay,
                          dateRetour := some (10 * usPerDay),
                          renouvellements := 0 })],
    suspensions := [("U1", 5)], reservations := [], files := [("B1", ["R1"])] }

theorem retour_idempotent_witness :
    GestionEmprunt.retourner stW8 (20 * usPerDay) "E9" =
      (Except.error BiblioErr.empruntNonTrouve, stW8) ∧
    GestionEmprunt.retourner stW8 (20 * usPerDay) "E1" =
      (Except.ok { idEmprunt := "E1", matriculeUser := "U1", isbn := "B1",
                   codeBarre := "11111", dateEmprunt := 0,
                   dateEcheance := 14 * usPerDay,
                   dateRetour := some (10 * usPerDay),
                   renouvellements := 0 }, stW8) := by
  have h1 := (retour_idempotent stW8 (20 * usPerDay) "E9").1 (by decide)
  have h2 := (retour_idempotent stW8 (20 * usPerDay) "E1").2
    { idEmprunt := "E1", matriculeUser := "U1", isbn := "B1", codeBarre := "11111",
      dateEmprunt := 0, dateEcheance := 14 * usPerDay,
      dateRetour := some (10 * usPerDay), renouvellements := 0 }
    (by decide) (by decide)
  exact ⟨h1, h2⟩

/-- Sample confirmed reservation for the C5 counterexample. -/
def rX5 : Reservation :=
  { id := "R1", matriculeUser := "U1", isbn := "B1",
    dateReservation := 0, statut := "confirme" }

/-- Claim C5, counterexample: cancelling a Confirmed reservation does
not fail with an invalid-transition error — `annuler` silently moves it
to `annule`. -/
theorem annuler_confirme_contre_exemple :
    rX5.statut = "confirme" ∧ (Reservation.annuler rX5).statut = "annule" := by
  decide

/-- Claim C5 as amended: the possible transitions are
Pending→Notified, Notified→Confirmed and any-state→Cancelled
(re-cancelling is an idempotent no-op and cancelling never fails, even
from Confirmed); notify on a non-Pending reservation and confirm on a
non-Notified one fail with a `ValueError` (`InvalidTransition`) and
leave the status unchanged. -/
theorem transitions_reservation (r : Reservation) :
    (r.statut = "en_attente" →
      Reservation.notifier r = Except.ok { r with statut := "notifie" }) ∧
    (r.statut ≠ "en_attente" → Reservation.notifier r = Except.error ()) ∧
    (r.statut = "notifie" →
      Reservation.confirmer r = Except.ok { r with statut := "confirme" }) ∧
    (r.statut ≠ "notifie" → Reservation.confirmer r = Except.error ()) ∧
    (r.statut = "annule" → Reservation.annuler r = r) ∧
    (Reservation.annuler r).statut = "annule" := by
  refine ⟨?_, ?_, ?_, ?_, ?_, ?_⟩ <;>
    first
    | (intro h
       simp [Reservation.notifier, Reservation.confirmer, Reservation.annuler, h])
    | (unfold Reservation.annuler
       split <;> simp_all)

theorem transitions_reservation_witness :
    Reservation.notifier { rX5 with statut := "en_attente" } =
      Except.ok { rX5 with statut := "notifie" } ∧
    Reservation.confirmer { rX5 with statut := "notifie" } =
      Except.ok { rX5 with statut := "confirme" } ∧
    Reservation.notifier { rX5 with statut := "notifie" } = Except.error () ∧
    Reservation.annuler { rX5 with statut := "annule" } = { rX5 with statut := "annule" } := by
  refine ⟨(transitions_reservation _).1 (by decide),
          (transitions_reservation _).2.2.1 (by decide),
          (transitions_reservation _).2.1 (by decide),
          (transitions_reservation _).2.2.2.2.1 (by decide)⟩

/-- Loan returned 0.05 s after a due date lying 0.9 s past a whole
second: serialization truncates both to the same second. -/
def eX9 : Emprunt :=
  { idEmprunt := "E9", matriculeUser := "U1", isbn := "B1", codeBarre := "11111",
    dateEmprunt := 0, dateEcheance := 900000, dateRetour := some 950000,
    renouvellements := 0 }

/-- Claim C9, counterexample: the loan `eX9` has derived status
`en_retard` (returned after due), but its serialize-reconstruct image
has status `retourne`, because `data_format` writes dates with
`timespec='seconds'` and the sub-second difference is lost. -/
theorem serialisation_statut_contre_exemple :
    Emprunt.statut eX9 0 = "en_retard" ∧
    (Emprunt.from_dict (Emprunt.data_format eX9 0)).map (fun e => e.statut 0) =
      some "retourne" := by
  decide

/-- Claim C9 as amended: serializing a Loan or a Reservation and
reconstructing it yields an entity with identical identity fields
(loan/reservation id, matricule, isbn, barcode); the reconstructed
Reservation is identical to the original (status included), and the
reconstructed Loan has the same derived status whenever the loan's due
date and return time are whole seconds (loan serialization truncates
datetimes to second precision, which can flip a sub-second-overdue
return between `en_retard` and `retourne`). -/
theorem serialisation_aller_retour :
    (∀ (e : Emprunt) (now : DateTime), valider_code_barre e.codeBarre = true →
      ∃ e', Emprunt.from_dict (Emprunt.data_format e now) = some e' ∧
        e'.idEmprunt = e.idEmprunt ∧ e'.matriculeUser = e.matriculeUser ∧
        e'.isbn = e.isbn ∧ e'.codeBarre = e.codeBarre ∧
        e'.renouvellements = e.renouvellements ∧
        (truncSec e.dateEcheance = e.dateEcheance →
         e.dateRetour.map truncSec = e.dateRetour →
         ∀ t, e'.statut t = e.statut t)) ∧
    (∀ r : Reservation, r.matriculeUser ≠ "" → r.isbn ≠ "" →
      Reservation.STATUTS_VALIDES.contains r.statut = true →
      Reservation.from_dict (Reservation.data_format r) = some r) := by
  constructor
  · intro e now hcb
    unfold Emprunt.from_dict Emprunt.data_format
    simp only [hcb, if_true]
    refine ⟨_, rfl, rfl, rfl, rfl, rfl, rfl, ?_⟩
    intro hech hret t
    unfold Emprunt.statut
    dsimp only
    rw [hech]
    cases hr : e.dateRetour with
    | none => simp
    | some d =>
      rw [hr] at hret
      have hd : truncSec d = d := by simpa using hret
      simp [hd]
  · intro r hm hi hs
    unfold Reservation.from_dict Reservation.data_format
    simp only [hs, if_true, hm, hi, if_neg]
    rfl

theorem serialisation_aller_retour_witness :
    (∃ e', Emprunt.from_dict (Emprunt.data_format eW1 0) = some e' ∧
      e'.idEmprunt = eW1.idEmprunt ∧ e'.matriculeUser = eW1.matriculeUser ∧
      e'.isbn = eW1.isbn ∧ e'.codeBarre = eW1.codeBarre ∧
      e'.renouvellements = eW1.renouvellements ∧
      (truncSec eW1.dateEcheance = eW1.dateEcheance →
       eW1.dateRetour.map truncSec = eW1.dateRetour →
       ∀ t, e'.statut t = eW1.statut t)) ∧
    Reservation.from_dict (Reservation.data_format rX5) = some rX5 := by
  refine ⟨serialisation_aller_retour.1 eW1 0 (by decide),
          serialisation_aller_retour.2 rX5 (by decide) (by decide) (by decide)⟩

/-- Claim C7: with the member and the book found, `reserver` fails with
`livreDejaDisponible` whenever the book has an available copy, fails
with `reservationEnCours` whenever the member already holds a pending
or notified reservation for that ISBN, and otherwise creates the
reservation in state `en_attente` and appends its id at the tail of the
ISBN's FIFO queue. -/
theorem reserver_conditions (st : Etat) (now : DateTime) (freshId matricule isbn : String)
    (livre : Livre)
    (hu : (getUser st.users matricule).isSome = true)
    (hl : getLivre st.livres isbn = some livre) :
    (livre.est_disponible = true →
      GestionReservation.reserver st now freshId matricule isbn =
        (Except.error BiblioErr.livreDejaDisponible, st)) ∧
    (livre.est_disponible = false →
      ((st.reservations.map fun p => p.2).any fun r =>
          r.matriculeUser == matricule && r.isbn == isbn &&
          (r.statut == "en_attente" || r.statut == "notifie")) = true →
      GestionReservation.reserver st now freshId matricule isbn =
        (Except.error BiblioErr.reservationEnCours, st)) ∧
    (livre.est_disponible = false →
      ((st.reservations.map fun p => p.2).any fun r =>
          r.matriculeUser == matricule && r.isbn == isbn &&
          (r.statut == "en_attente" || r.statut == "notifie")) = false →
      (GestionReservation.reserver st now freshId matricule isbn).1 =
        Except.ok { id := freshId, matriculeUser := matricule, isbn := isbn,
                    dateReservation := now, statut := "en_attente" } ∧
      dictGet ((GestionReservation.reserver st now freshId matricule isbn).2).files isbn =
        some (((dictGet st.files isbn).getD []) ++ [freshId])) := by
  rcases Option.isSome_iff_exists.mp hu with ⟨u, hu'⟩
  refine ⟨?_, ?_, ?_⟩
  · intro hdisp
    unfold GestionReservation.reserver
    simp only [hu', hl, hdisp, if_true]
  · intro hdisp hdup
    unfold GestionReservation.reserver
    simp only [hu', hl, hdisp, hdup, Bool.false_eq_true, if_false, if_true]
  · intro hdisp hdup
    unfold GestionReservation.reserver
    simp only [hu', hl, hdisp, hdup, Bool.false_eq_true, if_false]
    exact ⟨trivial, dictGet_dictSet_self _ _ _⟩

/-- Sample states for the C7 witness. -/
def livW7indispo : Livre :=
  { livW1 with exemplaires := [{ exW1 with statut := StatutLivre.emprunte }] }

def stW7a : Etat :=
  { livres := [livW1], users := [usrW1], emprunts := [],
    suspensions := [], reservations := [], files := [] }

def stW7b : Etat :=
  { stW7a with
    livres := [livW7indispo]
    reservations := [("R0", { id := "R0", matriculeUser := "U1", isbn := "B1",
                              dateReservation := 0, statut := "en_attente" })]
    files := [("B1", ["R0"])] }

def stW7c : Etat := { stW7b with reservations := [], files := [] }

theorem reserver_conditions_witness :
    GestionReservation.reserver stW7a 0 "R1" "U1" "B1" =
      (Except.error BiblioErr.livreDejaDisponible, stW7a) ∧
    GestionReservation.reserver stW7b 0 "R1" "U1" "B1" =
      (Except.error BiblioErr.reservationEnCours, stW7b) ∧
    ((GestionReservation.reserver stW7c 0 "R1" "U1" "B1").1 =
      Except.ok { id := "R1", matriculeUser := "U1", isbn := "B1",
                  dateReservation := 0, statut := "en_attente" } ∧
     dictGet ((GestionReservation.reserver stW7c 0 "R1" "U1" "B1").2).files "B1" =
       some (((dictGet stW7c.files "B1").getD []) ++ ["R1"])) := by
  refine ⟨(reserver_conditions stW7a 0 "R1" "U1" "B1" livW1 (by decide) (by decide)).1
            (by decide),
          (reserver_conditions stW7b 0 "R1" "U1" "B1" livW7indispo (by decide) (by decide)).2.1
            (by decide) (by decide),
          (reserver_conditions stW7c 0 "R1" "U1" "B1" livW7indispo (by decide) (by decide)).2.2
            (by decide) (by decide)⟩

lemma nettoyer_dictRemove (l : List (String × DateTime)) (k : String) (v : DateTime)
    (now : DateTime) (hnodup : (l.map fun p => p.1).Nodup)
    (h : dictGet l k = some v) (hv : ¬ now < v) :
    nettoyerSuspensions now (dictRemove l k) = nettoyerSuspensions now l := by
  induction l with
  | nil => simp [dictGet, List.find?] at h
  | cons p rest ih =>
    rw [List.map_cons, List.nodup_cons] at hnodup
    obtain ⟨hp1, hrestnodup⟩ := hnodup
    by_cases hp : p.1 == k
    · have hpk : p.1 = k := by simpa using hp
      have hv2 : p.2 = v := by simpa [dictGet, List.find?, hp] using h
      have hnok : ∀ q ∈ rest, (q.1 == k) = false := by
        intro q hq
        by_contra hcon
        have hqk : q.1 = k := by
          have : (q.1 == k) = true := by
            revert hcon
            cases q.1 == k <;> simp
          simpa using this
        exact hp1 (List.mem_map.mpr ⟨q, hq, hqk.trans hpk.symm⟩)
      have hremove : dictRemove (p :: rest) k = rest := by
        unfold dictRemove
        rw [List.filter_cons]
        simp only [hp, Bool.not_true, Bool.false_eq_true, if_false]
        exact List.filter_eq_self.mpr fun q hq => by simp [hnok q hq]
      rw [hremove]
      unfold nettoyerSuspensions
      rw [List.filter_cons]
      have : decide (now < p.2) = false := by simpa [hv2] using hv
      simp [this]
    · have h' : dictGet rest k = some v := by
        simpa [dictGet, List.find?, hp] using h
      have := ih hrestnodup h'
      unfold dictRemove nettoyerSuspensions at this ⊢
      rw [List.filter_cons, List.filter_cons]
      simp only [hp, Bool.not_false, if_true]
      rw [List.filter_cons]
      by_cases hkeep : decide (now < p.2) = true
      · simp only [hkeep, if_pos]
        rw [this]
      · simp only [hkeep]
        simpa using this

lemma isSuspendedCheck_effets (st : Etat) (now : DateTime) (m : String) :
    ((GestionEmprunt.isSuspendedCheck st now m).2).livres = st.livres ∧
    ((GestionEmprunt.isSuspendedCheck st now m).2).users = st.users ∧
    ((GestionEmprunt.isSuspendedCheck st now m).2).emprunts = st.emprunts ∧
    ((GestionEmprunt.isSuspendedCheck st now m).2).reservations = st.reservations ∧
    ((GestionEmprunt.isSuspendedCheck st now m).2).files = st.files := by
  unfold GestionEmprunt.isSuspendedCheck
  cases dictGet st.suspensions m with
  | none => exact ⟨rfl, rfl, rfl, rfl, rfl⟩
  | some endT =>
    dsimp only
    by_cases hlt : now < endT
    · rw [if_pos hlt]
      exact ⟨rfl, rfl, rfl, rfl, rfl⟩
    · rw [if_neg hlt]
      exact ⟨rfl, rfl, rfl, rfl, rfl⟩

lemma isSuspendedCheck_suspensions_nodup (st : Etat) (now : DateTime) (m : String)
    (hnodup : (st.suspensions.map fun p => p.1).Nodup) :
    ((GestionEmprunt.isSuspendedCheck st now m).2).suspensions = st.suspensions ∨
    ((GestionEmprunt.isSuspendedCheck st now m).2).suspensions =
      nettoyerSuspensions now st.suspensions := by
  unfold GestionEmprunt.isSuspendedCheck
  cases hd : dictGet st.suspensions m with
  | none => exact Or.inl rfl
  | some endT =>
    dsimp only
    by_cases hlt : now < endT
    · rw [if_pos hlt]
      exact Or.inl rfl
    · rw [if_neg hlt]
      exact Or.inr (nettoyer_dictRemove _ _ _ _ hnodup hd hlt)

lemma emprunter_reservations_files (st : Etat) (now : DateTime) (fid m i : String)
    (cb : Option String) (d : Int) :
    ((GestionEmprunt.emprunter st now fid m i cb d).2).reservations = st.reservations ∧
    ((GestionEmprunt.emprunter st now fid m i cb d).2).files = st.files := by
  unfold GestionEmprunt.emprunter
  split
  · exact ⟨rfl, rfl⟩
  · dsimp only
    have heff := isSuspendedCheck_effets st now m
    split
    · exact ⟨heff.2.2.2.1, heff.2.2.2.2⟩
    · split
      · exact ⟨heff.2.2.2.1, heff.2.2.2.2⟩
      · split
        · exact ⟨heff.2.2.2.1, heff.2.2.2.2⟩
        · split
          · exact ⟨heff.2.2.2.1, heff.2.2.2.2⟩
          · split
            · exact ⟨heff.2.2.2.1, heff.2.2.2.2⟩
            · exact ⟨heff.2.2.2.1, heff.2.2.2.2⟩

/-- Claim C10: whenever `emprunter` fails (member not found, suspended,
at the loan limit, book not found, no matching available copy), the
in-memory state is unchanged except that expired suspension entries may
be pruned: no loan is created, no copy or book is touched, the member
records are untouched.  (The suspension table of a running system is a
Python dict, hence the unique-keys hypothesis.) -/
theorem emprunt_echec_sans_effet (st : Etat) (now : DateTime)
    (freshId matricule isbn : String) (codeBarre : Option String) (duree : Int)
    (err : BiblioErr) (st' : Etat)
    (hnodup : (st.suspensions.map fun p => p.1).Nodup)
    (h : GestionEmprunt.emprunter st now freshId matricule isbn codeBarre duree =
          (Except.error err, st')) :
    st'.livres = st.livres ∧ st'.users = st.users ∧ st'.emprunts = st.emprunts ∧
    st'.reservations = st.reservations ∧ st'.files = st.files ∧
    (st'.suspensions = st.suspensions ∨
     st'.suspensions = nettoyerSuspensions now st.suspensions) := by
  have heff := isSuspendedCheck_effets st now matricule
  have hsusp := isSuspendedCheck_suspensions_nodup st now matricule hnodup
  unfold GestionEmprunt.emprunter at h
  split at h
  · rw [Prod.mk.injEq] at h
    rw [← h.2]
    exact ⟨rfl, rfl, rfl, rfl, rfl, Or.inl rfl⟩
  · dsimp only at h
    split at h
    · rw [Prod.mk.injEq] at h
      rw [← h.2]
      exact ⟨heff.1, heff.2.1, heff.2.2.1, heff.2.2.2.1, heff.2.2.2.2, hsusp⟩
    · split at h
      · rw [Prod.mk.injEq] at h
        rw [← h.2]
        exact ⟨heff.1, heff.2.1, heff.2.2.1, heff.2.2.2.1, heff.2.2.2.2, hsusp⟩
      · split at h
        · rw [Prod.mk.injEq] at h
          rw [← h.2]
          exact ⟨heff.1, heff.2.1, heff.2.2.1, heff.2.2.2.1, heff.2.2.2.2, hsusp⟩
        · split at h
          · rw [Prod.mk.injEq] at h
            rw [← h.2]
            exact ⟨heff.1, heff.2.1, heff.2.2.1, heff.2.2.2.1, heff.2.2.2.2, hsusp⟩
          · split at h
            · rw [Prod.mk.injEq] at h
              rw [← h.2]
              exact ⟨heff.1, heff.2.1, heff.2.2.1, heff.2.2.2.1, heff.2.2.2.2, hsusp⟩
            · rw [Prod.mk.injEq] at h
              exact absurd h.1 (by simp)

/-- Sample state for the C10 witness: the member holds an expired
suspension and the book has no available copy, so the borrow fails and
the only change is the pruning of the stale entry. -/
def stW10 : Etat :=
  { livres := [livW7indispo], users := [usrW1],
    emprunts := [], suspensions := [("U1", 5)], reservations := [], files := [] }

theorem emprunt_echec_sans_effet_witness :
    ((GestionEmprunt.emprunter stW10 10 "E1" "U1" "B1" none 14).2).livres = stW10.livres ∧
    ((GestionEmprunt.emprunter stW10 10 "E1" "U1" "B1" none 14).2).users = stW10.users ∧
    ((GestionEmprunt.emprunter stW10 10 "E1" "U1" "B1" none 14).2).emprunts = stW10.emprunts ∧
    ((GestionEmprunt.emprunter stW10 10 "E1" "U1" "B1" none 14).2).reservations = stW10.reservations ∧
    ((GestionEmprunt.emprunter stW10 10 "E1" "U1" "B1" none 14).2).files = stW10.files ∧
    (((GestionEmprunt.emprunter stW10 10 "E1" "U1" "B1" none 14).2).suspensions = stW10.suspensions ∨
     ((GestionEmprunt.emprunter stW10 10 "E1" "U1" "B1" none 14).2).suspensions =
       nettoyerSuspensions 10 stW10.suspensions) := by
  exact emprunt_echec_sans_effet stW10 10 "E1" "U1" "B1" none 14
    BiblioErr.exemplaireIndisponible
    (GestionEmprunt.emprunter stW10 10 "E1" "U1" "B1" none 14).2
    (by decide) rfl

/-- Claim C4: confirming a Notified reservation whose delegated borrow
fails (for any error) returns `false` and leaves the reservation table
and every queue unchanged; in particular the reservation stays
`notifie` at its place. -/
theorem confirmer_echec_emprunt (st : Etat) (now : DateTime)
    (freshEmpruntId idReservation : String) (r : Reservation) (err : BiblioErr)
    (h1 : dictGet st.reservations idReservation = some r)
    (h2 : r.statut = "notifie")
    (h3 : (GestionEmprunt.emprunter st now freshEmpruntId r.matriculeUser r.isbn none 14).1 =
          Except.error err) :
    (GestionReservation.confirmer st now freshEmpruntId idReservation).1 = false ∧
    ((GestionReservation.confirmer st now freshEmpruntId idReservation).2).reservations =
      st.reservations ∧
    ((GestionReservation.confirmer st now freshEmpruntId idReservation).2).files = st.files ∧
    dictGet ((GestionReservation.confirmer st now freshEmpruntId idReservation).2).reservations
      idReservation = some r := by
  have hpres := emprunter_reservations_files st now freshEmpruntId r.matriculeUser r.isbn none 14
  have hconf : r.est_confirmable = true := by
    simp [Reservation.est_confirmable, h2]
  unfold GestionReservation.confirmer
  rcases hemp : GestionEmprunt.emprunter st now freshEmpruntId r.matriculeUser r.isbn none 14
    with ⟨res, st1⟩
  rw [hemp] at h3 hpres
  dsimp only at h3 hpres
  subst h3
  simp only [h1, hconf, Bool.not_true, Bool.false_eq_true, if_false, hemp]
  refine ⟨by simp, hpres.1, hpres.2, ?_⟩
  rw [hpres.1]
  exact h1

/-- Sample state for the C4 witness: `U1` holds a notified reservation
for `B1` but is under an unexpired suspension, so the delegated borrow
fails. -/
def stW4 : Etat :=
  { livres := [livW1], users := [usrW1], emprunts := [],
    suspensions := [("U1", 100 * usPerDay)],
    reservations := [("R1", { id := "R1", matriculeUser := "U1", isbn := "B1",
                              dateReservation := 0, statut := "notifie" })],
    files := [("B1", ["R1"])] }

theorem confirmer_echec_emprunt_witness :
    (GestionReservation.confirmer stW4 10 "E1" "R1").1 = false ∧
    ((GestionReservation.confirmer stW4 10 "E1" "R1").2).reservations = stW4.reservations ∧
    ((GestionReservation.confirmer stW4 10 "E1" "R1").2).files = stW4.files ∧
    dictGet ((GestionReservation.confirmer stW4 10 "E1" "R1").2).reservations "R1" =
      some { id := "R1", matriculeUser := "U1", isbn := "B1",
             dateReservation := 0, statut := "notifie" } := by
  exact confirmer_echec_emprunt stW4 10 "E1" "R1"
    { id := "R1", matriculeUser := "U1", isbn := "B1",
      dateReservation := 0, statut := "notifie" }
    BiblioErr.utilisateurSuspendu (by decide) (by decide) rfl

lemma appliquerPenalitesAux_append (now : DateTime) (xs ys : List Emprunt)
    (susp : List (String × DateTime)) :
    GestionEmprunt.appliquerPenalitesAux now (xs ++ ys) susp =
      GestionEmprunt.appliquerPenalitesAux now ys
        (GestionEmprunt.appliquerPenalitesAux now xs susp) := by
  induction xs generalizing susp with
  | nil => rfl
  | cons e rest ih =>
    simp only [List.cons_append, GestionEmprunt.appliquerPenalitesAux]
    exact ih _

lemma appliquerPenalitesAux_lookup_stable (now : DateTime) (es : List Emprunt)
    (susp : List (String × DateTime)) (m : String)
    (h : ∀ e ∈ es, e.matriculeUser = m → e.dateRetour = none →
      e.dateEcheance < now → Int.fdiv (now - e.dateEcheance) usPerDay ≤ 0) :
    dictGet (GestionEmprunt.appliquerPenalitesAux now es susp) m = dictGet susp m := by
  induction es generalizing susp with
  | nil => rfl
  | cons e rest ih =>
    have hrest : ∀ e' ∈ rest, e'.matriculeUser = m → e'.dateRetour = none →
        e'.dateEcheance < now → Int.fdiv (now - e'.dateEcheance) usPerDay ≤ 0 :=
      fun e' he' => h e' (List.mem_cons_of_mem _ he')
    unfold GestionEmprunt.appliquerPenalitesAux
    by_cases hr : e.dateRetour.isNone
    · by_cases hd : e.dateEcheance < now
      · by_cases hj : 0 < Int.fdiv (now - e.dateEcheance) usPerDay
        · have hm : e.matriculeUser ≠ m := by
            intro hmm
            have := h e (List.mem_cons_self _ _) hmm (Option.isNone_iff_eq_none.mp hr) hd
            omega
          simp only [hr, hd, hj, if_true, if_pos]
          rw [ih _ hrest]
          exact dictGet_dictSet_ne _ _ _ _ (Ne.symm hm)
        · simp only [hr, hd, hj, if_true, if_pos, if_neg, Bool.false_eq_true]
          exact ih _ hrest
      · simp only [hr, hd, if_true, if_neg, Bool.false_eq_true]
        exact ih _ hrest
    · simp only [hr, Bool.false_eq_true, if_neg, if_false]
      exact ih _ hrest

/-- A loan one hour past due for the C6 counterexample. -/
def eX6 : Emprunt :=
  { idEmprunt := "E1", matriculeUser := "U1", isbn := "B1", codeBarre := "11111",
    dateEmprunt := 0, dateEcheance := 0, dateRetour := none, renouvellements := 0 }

/-- State holding only the loan `eX6`, with an empty suspension
table. -/
def stX6 : Etat :=
  { livres := [], users := [], emprunts := [("E1", eX6)],
    suspensions := [], reservations := [], files := [] }

/-- Claim C6, counterexample: at `now` one hour past `eX6`'s due date
(`(now − due).days = 0`), `appliquer_penalites` leaves the member
without any suspension entry, whereas the claim demands an entry equal
to `now + 0 days`. -/
theorem penalites_sous_un_jour_contre_exemple :
    eX6.dateRetour = none ∧ eX6.dateEcheance < 3600 * usPerSec ∧
    dictGet ((GestionEmprunt.appliquer_penalites stX6 (3600 * usPerSec)).suspensions) "U1" =
      none := by
  decide

/-- Claim C6 as amended: after `appliquer_penalites`, every
not-yet-returned loan past due by at least one whole day
(`(now − due).days ≥ 1`) that is its member's last such loan in scan
order leaves the suspension table mapping the member to
`now + 3 × (now − due).days` days, overwriting any previous entry;
loans past due by less than one whole day set no entry. -/
theorem penalites_suspendent_retards (st : Etat) (now : DateTime)
    (l1 l2 : List Emprunt) (e : Emprunt)
    (hsplit : st.emprunts.map (fun p => p.2) = l1 ++ e :: l2)
    (h1 : e.dateRetour = none)
    (h2 : e.dateEcheance < now)
    (h3 : 0 < Int.fdiv (now - e.dateEcheance) usPerDay)
    (hlast : ∀ e' ∈ l2, e'.matriculeUser = e.matriculeUser → e'.dateRetour = none →
      e'.dateEcheance < now → Int.fdiv (now - e'.dateEcheance) usPerDay ≤ 0) :
    dictGet ((GestionEmprunt.appliquer_penalites st now).suspensions) e.matriculeUser =
      some (now + Int.fdiv (now - e.dateEcheance) usPerDay *
        GestionEmprunt.FACTEUR_SUSPENSION * usPerDay) := by
  unfold GestionEmprunt.appliquer_penalites
  dsimp only
  rw [hsplit, appliquerPenalitesAux_append]
  have hstep :
      GestionEmprunt.appliquerPenalitesAux now (e :: l2)
        (GestionEmprunt.appliquerPenalitesAux now l1 st.suspensions) =
      GestionEmprunt.appliquerPenalitesAux now l2
        (dictSet (GestionEmprunt.appliquerPenalitesAux now l1 st.suspensions)
          e.matriculeUser
          (now + Int.fdiv (now - e.dateEcheance) usPerDay *
            GestionEmprunt.FACTEUR_SUSPENSION * usPerDay)) := by
    simp only [GestionEmprunt.appliquerPenalitesAux]
    simp only [h1, Option.isNone_none, if_true, h2, h3, if_pos]
  rw [hstep]
  have hself := dictGet_dictSet_self
    (GestionEmprunt.appliquerPenalitesAux now l1 st.suspensions) e.matriculeUser
    (now + Int.fdiv (now - e.dateEcheance) usPerDay *
      GestionEmprunt.FACTEUR_SUSPENSION * usPerDay)
  have hlook :=
    (appliquerPenalitesAux_lookup_stable now l2 _ e.matriculeUser hlast).trans hself
  refine dictGet_nettoyer _ _ _ _ hlook ?_
  have hday : (0:Int) < usPerDay := by norm_num [usPerDay]
  have hfac : (0:Int) < GestionEmprunt.FACTEUR_SUSPENSION := by
    norm_num [GestionEmprunt.FACTEUR_SUSPENSION]
  have hpos := mul_pos (mul_pos h3 hfac) hday
  linarith

/-- Sample state for the C6 witness: one loan two days past due. -/
def stW6 : Etat :=
  { livres := [], users := [],
    emprunts := [("E1", { idEmprunt := "E1", matriculeUser := "U1", isbn := "B1",
                          codeBarre := "11111", dateEmprunt := 0,
                          dateEcheance := 14 * usPerDay, dateRetour := none,
                          renouvellements := 0 })],
    suspensions := [], reservations := [], files := [] }

theorem penalites_suspendent_retards_witness :
    dictGet ((GestionEmprunt.appliquer_penalites stW6 (16 * usPerDay)).suspensions) "U1" =
      some (16 * usPerDay + Int.fdiv (16 * usPerDay - 14 * usPerDay) usPerDay *
        GestionEmprunt.FACTEUR_SUSPENSION * usPerDay) := by
  exact penalites_suspendent_retards stW6 (16 * usPerDay) [] []
    { idEmprunt := "E1", matriculeUser := "U1", isbn := "B1", codeBarre := "11111",
      dateEmprunt := 0, dateEcheance := 14 * usPerDay, dateRetour := none,
      renouvellements := 0 }
    (by decide) (by decide) (by decide) (by decide) (by simp)

/-- Claim C2: returning a not-yet-returned loan past its due date
suspends the member until `now + 3 × max(1, (returnTime − due).days)`
days, and any borrow attempt by that (still existing) member before the
expiry fails with `utilisateurSuspendu`. -/
theorem retour_en_retard_suspend (st : Etat) (now : DateTime) (idEmprunt : String) (e : Emprunt)
    (h1 : dictGet st.emprunts idEmprunt = some e)
    (h2 : e.dateRetour = none)
    (h3 : e.dateEcheance < now) :
    (GestionEmprunt.retourner st now idEmprunt).1 = Except.ok (e.marquer_retour now) ∧
    dictGet ((GestionEmprunt.retourner st now idEmprunt).2).suspensions e.matriculeUser =
      some (now + max 1 (Int.fdiv (now - e.dateEcheance) usPerDay) *
        GestionEmprunt.FACTEUR_SUSPENSION * usPerDay) ∧
    ∀ (now2 : DateTime) (freshId isbn2 : String) (codeBarre : Option String) (duree : Int),
      now2 < now + max 1 (Int.fdiv (now - e.dateEcheance) usPerDay) *
        GestionEmprunt.FACTEUR_SUSPENSION * usPerDay →
      (getUser ((GestionEmprunt.retourner st now idEmprunt).2).users e.matriculeUser).isSome = true →
      (GestionEmprunt.emprunter ((GestionEmprunt.retourner st now idEmprunt).2) now2 freshId
        e.matriculeUser isbn2 codeBarre duree).1 = Except.error BiblioErr.utilisateurSuspendu := by
  have hstat : Emprunt.statut (Emprunt.marquer_retour e now) now = "en_retard" := by
    unfold Emprunt.marquer_retour Emprunt.statut
    simp [h3]
  have hjnn : 0 ≤ Int.fdiv (now - e.dateEcheance) usPerDay :=
    Int.fdiv_nonneg (by linarith) (by norm_num [usPerDay])
  have hifmax : (if Int.fdiv (now - e.dateEcheance) usPerDay ≤ 0 then (1:Int)
                 else Int.fdiv (now - e.dateEcheance) usPerDay) =
                max 1 (Int.fdiv (now - e.dateEcheance) usPerDay) := by
    by_cases hc : Int.fdiv (now - e.dateEcheance) usPerDay ≤ 0
    · have h0 : Int.fdiv (now - e.dateEcheance) usPerDay = 0 := le_antisymm hc hjnn
      rw [if_pos hc, h0]
      norm_num
    · rw [if_neg hc]
      push_neg at hc
      exact (max_eq_right (by linarith)).symm
  have hfst : (GestionEmprunt.retourner st now idEmprunt).1 =
      Except.ok (Emprunt.marquer_retour e now) := by
    unfold GestionEmprunt.retourner
    simp only [h1, h2, Option.isSome_none, Bool.false_eq_true, if_false]
  have hsusp : ((GestionEmprunt.retourner st now idEmprunt).2).suspensions =
      nettoyerSuspensions now (dictSet st.suspensions e.matriculeUser
        (now + (if Int.fdiv (now - e.dateEcheance) usPerDay ≤ 0 then (1:Int)
                else Int.fdiv (now - e.dateEcheance) usPerDay) *
          GestionEmprunt.FACTEUR_SUSPENSION * usPerDay)) := by
    unfold GestionEmprunt.retourner
    simp only [h1, h2, Option.isSome_none, Bool.false_eq_true, if_false]
    rw [traiterFile_suspensions]
    dsimp only
    rw [if_pos hstat]
    rfl
  have hmaxpos : (0:Int) <
      max 1 (Int.fdiv (now - e.dateEcheance) usPerDay) *
        GestionEmprunt.FACTEUR_SUSPENSION * usPerDay := by
    have h1m : (1:Int) ≤ max 1 (Int.fdiv (now - e.dateEcheance) usPerDay) := le_max_left _ _
    have hday : (0:Int) < usPerDay := by norm_num [usPerDay]
    have hfac : (0:Int) < GestionEmprunt.FACTEUR_SUSPENSION := by
      norm_num [GestionEmprunt.FACTEUR_SUSPENSION]
    exact mul_pos (mul_pos (by linarith) hfac) hday
  have hlook : dictGet ((GestionEmprunt.retourner st now idEmprunt).2).suspensions
      e.matriculeUser =
      some (now + max 1 (Int.fdiv (now - e.dateEcheance) usPerDay) *
        GestionEmprunt.FACTEUR_SUSPENSION * usPerDay) := by
    rw [hsusp, hifmax]
    refine dictGet_nettoyer _ _ _ _ (dictGet_dictSet_self _ _ _) ?_
    linarith
  refine ⟨hfst, hlook, ?_⟩
  intro now2 freshId isbn2 codeBarre duree hlt hus
  rcases Option.isSome_iff_exists.mp hus with ⟨u, hu⟩
  have hcheck : GestionEmprunt.isSuspendedCheck
      ((GestionEmprunt.retourner st now idEmprunt).2) now2 e.matriculeUser =
      (some (now + max 1 (Int.fdiv (now - e.dateEcheance) usPerDay) *
        GestionEmprunt.FACTEUR_SUSPENSION * usPerDay),
       (GestionEmprunt.retourner st now idEmprunt).2) := by
    unfold GestionEmprunt.isSuspendedCheck
    rw [hlook]
    dsimp only
    rw [if_pos hlt]
  unfold GestionEmprunt.emprunter
  simp only [hu, hcheck]
  rfl

/-- Sample state for the C2 witness: the C1 borrow state, returned five
days late. -/
theorem retour_en_retard_suspend_witness :
    (GestionEmprunt.retourner stW1b (19 * usPerDay) "E1").1 =
      Except.ok (eW1.marquer_retour (19 * usPerDay)) ∧
    dictGet ((GestionEmprunt.retourner stW1b (19 * usPerDay) "E1").2).suspensions "U1" =
      some (19 * usPerDay + max 1 (Int.fdiv (19 * usPerDay - 14 * usPerDay) usPerDay) *
        GestionEmprunt.FACTEUR_SUSPENSION * usPerDay) ∧
    (GestionEmprunt.emprunter ((GestionEmprunt.retourner stW1b (19 * usPerDay) "E1").2)
        (20 * usPerDay) "E2" "U1" "B1" none 14).1 =
      Except.error BiblioErr.utilisateurSuspendu := by
  have h := retour_en_retard_suspend stW1b (19 * usPerDay) "E1" eW1
    (by decide) (by decide) (by decide)
  exact ⟨h.1, h.2.1,
    h.2.2 (20 * usPerDay) "E2" "B1" none 14 (by decide) (by decide)⟩

end Biblio
